import Mathlib

/-!
Shallow embedding of the gravitational n-body visualisation repository
(`nbody.py` and `scripts/grav_nbody_rk4.py`) and proofs about its
integration core.

Floating-point arithmetic of the source is modelled by exact real
arithmetic (`ℝ`).  Two-dimensional numpy-style vectors of `nbody.py`
become `ℝ × ℝ`, three-dimensional vectors of `grav_nbody_rk4.py` become
`ℝ × ℝ × ℝ` with the componentwise instances of `Prod`.  Python division
by zero (which would raise) is modelled by Lean's total division
(`x / 0 = 0`); all statements about concrete runs use configurations
where no division by zero occurs.
-/

noncomputable section

/-- Two-dimensional real vector, for `nbody.py` (positions/velocities are
2-element lists there). -/
abbrev Vec2 : Type := ℝ × ℝ

/-- Three-dimensional real vector, for `grav_nbody_rk4.py` (positions and
velocities are 3-component numpy arrays there). -/
abbrev Vec3 : Type := ℝ × ℝ × ℝ

/-- Euclidean norm of a 3-vector, the meaning of `np.linalg.norm` on a
3-component array. -/
def norm3 (v : Vec3) : ℝ := Real.sqrt (v.1 ^ 2 + v.2.1 ^ 2 + v.2.2 ^ 2)

namespace Nbody

/-- Solar radius in meters (`R_sun = 6.957e8` in `nbody.py`). -/
def R_sun : ℝ := 6.957e8

/-- Solar mass in kg (`M_sun = 2e30` in `nbody.py`). -/
def M_sun : ℝ := 2e30

/-- One year in seconds (`year = 365.25 * 24 * 60 * 60`). -/
def year : ℝ := 365.25 * 24 * 60 * 60

/-- Gravitational constant (`grav_constant = 6.67e-11`). -/
def grav_constant : ℝ := 6.67e-11

/-- One km in meters (`km = 10**3.0`). -/
def km : ℝ := 10 ^ (3 : ℕ)

/-- A particle of `nbody.py`: 2-D position and velocity, mass, radius,
colour and integer index.  The drawing state is presentation glue and is
not part of the dynamical state. -/
structure Particle where
  position : Vec2
  velocity : Vec2
  mass : ℝ
  radius : ℝ
  colour : String
  index : ℕ

/-- The `Particle.__init__` constructor of `nbody.py`: the velocity is
converted km/s → m/s, mass is converted solar masses → kg, the radius is
converted solar radii → m, and the position is stored exactly as given
(`self.position = init_pos`, no conversion). -/
def mkParticle (init_pos init_vel : Vec2) (mass radius : ℝ) (index : ℕ)
    (colour : String) : Particle :=
  { position := init_pos
    velocity := (init_vel.1 * km, init_vel.2 * km)
    mass := mass * M_sun
    radius := radius * R_sun
    colour := colour
    index := index }

/-- `Particle.distance_to` of `nbody.py`:
`sqrt ((x2 - x1)^2 + (y2 - y1)^2)` on stored positions. -/
def distance_to (self other : Particle) : ℝ :=
  Real.sqrt ((other.position.1 - self.position.1) ^ 2 +
    (other.position.2 - self.position.2) ^ 2)

/-- One inner-loop body of `gravitation`: the velocity increment that the
pair `(p1, p2)` contributes to `p1` during one `gravitation(particles, dt)`
call.  In exact arithmetic `sin (arctan2 dX dY) = dX / r` and
`cos (arctan2 dX dY) = dY / r` with `r = sqrt (dX^2 + dY^2)`, which is the
same expression as `distance_to`; the embedding uses these identities. -/
def pairKick (p1 p2 : Particle) (dt : ℝ) : Vec2 :=
  if p1.index ≠ p2.index then
    let Ftop := grav_constant * p1.mass * p2.mass
    let Fbot := (distance_to p1 p2) ^ (2 : ℕ)
    let F := Ftop / Fbot
    let deltaX := p2.position.1 - p1.position.1
    let deltaY := p2.position.2 - p1.position.2
    let r := Real.sqrt (deltaX ^ 2 + deltaY ^ 2)
    let Fx := F * (deltaX / r)
    let Fy := F * (deltaY / r)
    ((Fx / p1.mass) * dt, (Fy / p1.mass) * dt)
  else (0, 0)

/-- The `gravitation(particles, dt)` function of `nbody.py`.  The source
mutates `p1.velocity` in place pair by pair; since the loop reads only
positions, masses and indices of the other particles (never their
velocities), the in-place mutation is observationally the map below. -/
def gravitation (ps : List Particle) (dt : ℝ) : List Particle :=
  ps.map fun p1 =>
    { p1 with velocity := p1.velocity + (ps.map fun p2 => pairKick p1 p2 dt).sum }

/-- `Particle.update_position(dt, ...)` of `nbody.py`, for the particle at
list position `j`: `position += velocity * dt` componentwise (drawing of
tracks is presentation glue).  Out-of-range indices leave the list
unchanged (the source never indexes out of range). -/
def updatePositionAt (ps : List Particle) (j : ℕ) (dt : ℝ) : List Particle :=
  match ps.get? j with
  | some p => ps.set j
      { p with position := (p.position.1 + p.velocity.1 * dt,
                            p.position.2 + p.velocity.2 * dt) }
  | none => ps

/-- One iteration of the outer `for cycle in range(max_cycles)` loop of
`nbody.py`'s `__main__`: for each `j` in `range(len(particles))` the code
calls `gravitation(particles, time_step)` and then
`particles[j].update_position(time_step, cycle)`. -/
def eulerCycle (ps : List Particle) (dt : ℝ) : List Particle :=
  (List.range ps.length).foldl
    (fun s j => updatePositionAt (gravitation s dt) j dt) ps

/-- `k` completed cycles of the `nbody.py` main loop. -/
def steps (ps : List Particle) (dt : ℝ) : ℕ → List Particle
  | 0 => ps
  | k + 1 => steps (eulerCycle ps dt) dt k


/-- Total linear momentum `Σ mass • velocity` of a particle list (the
quantity of the momentum-conservation property). -/
def momentum (ps : List Particle) : Vec2 :=
  (ps.map fun p => p.mass • p.velocity).sum

/-- The time-step selection of `nbody.py`'s `__main__`
(`if args.timestep: time_step = args.timestep else: time_step = 24*3600`).
`none` models an absent argument; Python truthiness makes `0.0` fall back
to the default as well. -/
def selectTimestep (arg : Option ℝ) : ℝ :=
  match arg with
  | some t => if t = 0 then 24 * 3600 else t
  | none => 24 * 3600

end Nbody

namespace Grav

/-- Modelled from the spec: the module `constants.py` (imported as `C` by
`scripts/grav_nbody_rk4.py`) is not under `src/`; the spec's
PhysicalConstants component lists "fixed conversion factors (gravitational
constant, solar mass/radius, seconds-per-year, meters-per-kilometer)".
`XG` is the gravitational constant (the source comments "C.XG is the
Gravitational Constant"); the value mirrors `grav_constant` of
`nbody.py`. -/
def XG : ℝ := 6.67e-11

/-- Modelled from the spec: solar radius in meters, the factor converting
the solar-radii position inputs to SI (`constants.py` is missing); the
value mirrors `R_sun` of `nbody.py`. -/
def XRSUN : ℝ := 6.957e8

/-- Modelled from the spec: meters per kilometer, the factor converting
km/s velocity inputs to m/s (`constants.py` is missing). -/
def XKM : ℝ := 1000

/-- Modelled from the spec: solar mass in kg, the factor converting solar
mass inputs to kg (`constants.py` is missing); the value mirrors `M_sun`
of `nbody.py`. -/
def XMSUN : ℝ := 2e30

/-- Modelled from the spec: one day in seconds (`constants.py` is
missing); used by `read_args` for the default time step `C.XDAY / 10`. -/
def XDAY : ℝ := 86400

/-- A particle of `grav_nbody_rk4.py`: 3-D position and velocity (SI),
mass (kg), display radius (pixels) and colour.  `pid` models Python
object identity, used by the `p1 is not self` test in `acceleration`; the
main program only ever constructs distinct objects, so distinct particles
carry distinct `pid`s there. -/
structure Particle where
  pos : Vec3
  vel : Vec3
  mas : ℝ
  rad : ℝ
  col : ℕ × ℕ × ℕ
  pid : ℕ

/-- The `Particle.__init__` constructor of `grav_nbody_rk4.py`: position
is converted solar radii → m, velocity km/s → m/s, mass solar masses → kg;
the radius is stored as given (its conversion is commented out in the
source). -/
def mkParticle (pid : ℕ) (init_pos init_vel : Vec3) (mass rad : ℝ)
    (col : ℕ × ℕ × ℕ) : Particle :=
  { pos := (init_pos.1 * XRSUN, init_pos.2.1 * XRSUN, init_pos.2.2 * XRSUN)
    vel := (init_vel.1 * XKM, init_vel.2.1 * XKM, init_vel.2.2 * XKM)
    mas := mass * XMSUN
    rad := rad
    col := col
    pid := pid }

/-- `Particle.dist_to` of `grav_nbody_rk4.py`:
`np.linalg.norm(self.pos - other.pos)` on the stored positions. -/
def Particle.dist_to (self other : Particle) : ℝ :=
  norm3 (self.pos - other.pos)

/-- `Particle.acceleration(position, particleList)` of
`grav_nbody_rk4.py`.  Note that `delta` is taken from the candidate
`position`, while `dist` is `self.dist_to(p1)`, computed from the stored
position `self.pos`.  The in-place accumulation `a += ...` over the list
is the sum below; `delta / dist` is the componentwise scalar division of
numpy. -/
def Particle.acceleration (self : Particle) (position : Vec3)
    (particleList : List Particle) : Vec3 :=
  (particleList.map fun p1 =>
    if p1.pid = self.pid then (0 : Vec3)
    else
      let delta := p1.pos - position
      let dist := self.dist_to p1
      let dsquared := dist ^ (2 : ℕ)
      let Force := XG * self.mas * p1.mas / dsquared
      (Force / self.mas) • (dist⁻¹ • delta)).sum

/-- The `rk4(particle, particleList, dt)` integrator of
`grav_nbody_rk4.py`, returning `(new_pos, new_vel)`.  The source's scalar
by numpy-array products `c * v` are `c • v`. -/
def rk4 (particle : Particle) (particleList : List Particle) (dt : ℝ) :
    Vec3 × Vec3 :=
  let kv1 := particle.vel
  let kp1 := particle.pos
  let ka1 := particle.acceleration kp1 particleList
  let kv2 := kv1 + (0.5 * dt) • ka1
  let kp2 := kp1 + (0.5 * dt) • kv2
  let ka2 := particle.acceleration kp2 particleList
  let kv3 := kv1 + (0.5 * dt) • ka2
  let kp3 := kp1 + (0.5 * dt) • kv3
  let ka3 := particle.acceleration kp3 particleList
  let kv4 := kv1 + dt • ka3
  let kp4 := kp1 + dt • kv4
  let ka4 := particle.acceleration kp3 particleList
  let new_vel := kv1 + ((1 / 6 : ℝ) * dt) • (ka1 + (2 : ℝ) • (ka2 + ka3) + ka4)
  let new_pos := kp1 + ((1 / 6 : ℝ) * dt) • (kv1 + (2 : ℝ) • (kv2 + kv3) + kv4)
  (new_pos, new_vel)

/-- `update_particles(win, Plist, dt, SCALE)` of `grav_nbody_rk4.py`
(drawing stripped): for `i in range(len(Plist))`, assign
`Plist[i].pos, Plist[i].vel = rk4(Plist[i], Plist, dt)` in place, so the
`rk4` call for index `i` sees indices below `i` already updated.
Out-of-range indices leave the list unchanged (never reached). -/
def updateParticles (ps : List Particle) (dt : ℝ) : List Particle :=
  (List.range ps.length).foldl
    (fun s i =>
      match s.get? i with
      | some p =>
        let r := rk4 p s dt
        s.set i { p with pos := r.1, vel := r.2 }
      | none => s) ps

/-- `k` completed iterations of the `while running` loop of
`grav_nbody_rk4.py`'s `main` (one `update_particles` call per
iteration). -/
def steps (ps : List Particle) (dt : ℝ) : ℕ → List Particle
  | 0 => ps
  | k + 1 => steps (updateParticles ps dt) dt k

/-- Total linear momentum `Σ mas • vel` of a particle list (the quantity
of the momentum-conservation property). -/
def momentum (ps : List Particle) : Vec3 :=
  (ps.map fun p => p.mas • p.vel).sum

/-- The time-step selection of `read_args` in `grav_nbody_rk4.py`
(`if args.timestep: TIMESTEP = args.timestep else: TIMESTEP = C.XDAY / 10`).
`none` models an absent argument; Python truthiness makes `0.0` fall back
to the default as well. -/
def selectTimestep (arg : Option ℝ) : ℝ :=
  match arg with
  | some t => if t = 0 then XDAY / 10 else t
  | none => XDAY / 10

/-- The ForceModel contract exactly as the spec words it (for comparison
with `Particle.acceleration`): `delta = o.position - p`, `dist = |delta|`
computed from the candidate position `p`, and the contribution
`((G * b.mass * o.mass / dist^2) / b.mass) * (delta / dist)` via the
force-then-divide path. -/
def accelerationSpec (self : Particle) (position : Vec3)
    (particleList : List Particle) : Vec3 :=
  (particleList.map fun p1 =>
    if p1.pid = self.pid then (0 : Vec3)
    else
      let delta := p1.pos - position
      let dist := norm3 delta
      (XG * self.mas * p1.mas / dist ^ (2 : ℕ) / self.mas) •
        (dist⁻¹ • delta)).sum

/-- The per-step update exactly as the spec words it (for comparison with
`updateParticles`): every body's `rk4` update reads all other bodies at
their pre-step state (a snapshot), instead of the source's sequential
in-place mutation. -/
def updateParticlesSnapshot (ps : List Particle) (dt : ℝ) : List Particle :=
  ps.map fun p =>
    let r := rk4 p ps dt
    { p with pos := r.1, vel := r.2 }

end Grav

namespace Nbody

/-- The spec's §4.1 ForceModel in two dimensions (for comparison with the
code): acceleration on `b` at position `p` due to every other body,
summing `((G * b.mass * o.mass / dist^2) / b.mass) * (delta / dist)` with
`delta = o.position - p` and `dist = |delta|`. -/
def forceModelSpec (b : Particle) (p : Vec2) (bodies : List Particle) : Vec2 :=
  (bodies.map fun o =>
    if o.index = b.index then (0 : Vec2)
    else
      let delta := o.position - p
      let dist := Real.sqrt (delta.1 ^ 2 + delta.2 ^ 2)
      (grav_constant * b.mass * o.mass / dist ^ (2 : ℕ) / b.mass) •
        (dist⁻¹ • delta)).sum

/-- The SemiImplicitEuler step exactly as claim C3 words it (for
comparison with `eulerCycle`): during one full step each body's velocity
is updated exactly once, by `dt` times a single ForceModel evaluation at
its current position, and its position then advances with the
already-updated velocity. -/
def claimEulerStep (ps : List Particle) (dt : ℝ) : List Particle :=
  ps.map fun b =>
    let v := b.velocity + dt • forceModelSpec b b.position ps
    { b with velocity := v, position := b.position + dt • v }

end Nbody

/-- A mass whose product with the gravitational constant is exactly `1`,
used by the concrete configurations below (`6.67e-11 * 10^13 / 667 = 1`). -/
def Mval : ℝ := 10 ^ (13 : ℕ) / 667

/-- First body of the concrete RK4 configuration: at the origin, at rest. -/
def gA : Grav.Particle :=
  { pos := (0, 0, 0), vel := (0, 0, 0), mas := Mval, rad := 4,
    col := (0, 0, 0), pid := 0 }

/-- Second body of the concrete RK4 configuration: one meter along the
x-axis, at rest. -/
def gB : Grav.Particle :=
  { pos := (1, 0, 0), vel := (0, 0, 0), mas := Mval, rad := 4,
    col := (0, 0, 0), pid := 1 }

/-- The state of `gA` after its `rk4` update inside
`updateParticles [gA, gB] 1`. -/
def gA1 : Grav.Particle :=
  { gA with pos := (41 / 96, 0, 0), vel := (79 / 96, 0, 0) }

/-- The state of `gB` after its sequential `rk4` update (which reads `gA`
already moved to `gA1`). -/
def gB1 : Grav.Particle :=
  { gB with pos := (-5915174784191 / 83733937890625, 0, 0),
            vel := (-197918959592448 / 83733937890625, 0, 0) }

/-- The state `gB` would reach under the snapshot semantics of the spec
(reading `gA` at its pre-step position). -/
def gBsnap : Grav.Particle :=
  { gB with pos := (55 / 96, 0, 0), vel := (-79 / 96, 0, 0) }

/-- First body of the concrete Euler configuration: at the origin, at
rest. -/
def nb0 : Nbody.Particle :=
  { position := (0, 0), velocity := (0, 0), mass := Mval, radius := 1,
    colour := "#FF0000", index := 0 }

/-- Second body of the concrete Euler configuration: one meter along the
x-axis, at rest. -/
def nb1 : Nbody.Particle :=
  { position := (1, 0), velocity := (0, 0), mass := Mval, radius := 1,
    colour := "#00FF00", index := 1 }

end

section ListHelpers

variable {α : Type*} {β : Type*} {γ : Type*} {σ : Type*} {M : Type*}

theorem sumMapAdd [AddCommMonoid M] (f g : α → M) :
    ∀ l : List α, (l.map fun a => f a + g a).sum = (l.map f).sum + (l.map g).sum
  | [] => by simp
  | a :: t => by
    simp only [List.map_cons, List.sum_cons, sumMapAdd f g t]
    abel

theorem sumMapNeg [AddCommGroup M] (f : α → M) :
    ∀ l : List α, (l.map fun a => -f a).sum = -(l.map f).sum
  | [] => by simp
  | a :: t => by
    simp only [List.map_cons, List.sum_cons, sumMapNeg f t]
    abel

theorem doubleSumZero [AddCommGroup M] (f : α → α → M)
    (hdiag : ∀ a, f a a = 0) (hskew : ∀ a b, f a b = -f b a) :
    ∀ l : List α, (l.map fun a => (l.map fun b => f a b).sum).sum = 0
  | [] => by simp
  | a :: t => by
    simp only [List.map_cons, List.sum_cons]
    rw [hdiag a, sumMapAdd (fun x => f x a) (fun x => (t.map fun b => f x b).sum) t,
      doubleSumZero f hdiag hskew t]
    have hmap : (t.map fun x => f x a) = t.map fun x => -f a x :=
      List.map_congr_left fun x _ => hskew x a
    rw [hmap, sumMapNeg (fun x => f a x) t]
    abel

theorem setGetSelf : ∀ (l : List α) (n : ℕ) (x : α), l.get? n = some x → l.set n x = l
  | [], _, _, h => by simp at h
  | a :: t, 0, x, h => by
    simp only [List.get?_cons_zero, Option.some.injEq] at h
    simp [h]
  | a :: t, n + 1, x, h => by
    simp only [List.get?_cons_succ] at h
    simp [setGetSelf t n x h]

theorem mapSetPreserve (f : α → γ) (l : List α) (j : ℕ) (p' p : α)
    (h : l.get? j = some p) (hf : f p' = f p) :
    (l.set j p').map f = l.map f := by
  rw [List.map_set, hf]
  exact setGetSelf _ _ _ (by rw [List.get?_map, h, Option.map_some'])

theorem foldlPreserve (g : σ → γ) (step : σ → β → σ)
    (h : ∀ s b, g (step s b) = g s) :
    ∀ (l : List β) (s : σ), g (l.foldl step s) = g s
  | [], _ => rfl
  | b :: t, s => by rw [List.foldl_cons, foldlPreserve g step h t, h]

theorem foldlId (step : σ → β → σ) (h : ∀ s b, step s b = s) :
    ∀ (l : List β) (s : σ), l.foldl step s = s
  | [], _ => rfl
  | b :: t, s => by rw [List.foldl_cons, h, foldlId step h t]

theorem mapIdOf (f : α → α) : ∀ l : List α, (∀ a ∈ l, f a = a) → l.map f = l
  | [], _ => rfl
  | a :: t, h => by
    simp only [List.map_cons, h a (List.mem_cons_self a t),
      mapIdOf f t fun x hx => h x (List.mem_cons_of_mem a hx)]

end ListHelpers

/-- Field identity behind momentum conservation of one `gravitation`
call: the momentum `p1` gains from the pair `(p1, p2)` is the negative of
what `p2` gains from `(p2, p1)`, including all degenerate cases of total
real division (`m1 = 0`, `m2 = 0`, coincident positions `r = 0`). -/
theorem kickSkew (G m1 m2 r d dt : ℝ) :
    m1 * (G * m1 * m2 / r ^ (2 : ℕ) * (d / r) / m1 * dt) =
      -(m2 * (G * m2 * m1 / r ^ (2 : ℕ) * (-d / r) / m2 * dt)) := by
  rcases eq_or_ne m1 0 with h1 | h1
  · simp [h1]
  rcases eq_or_ne m2 0 with h2 | h2
  · simp [h2]
  rcases eq_or_ne r 0 with hr | hr
  · simp [hr]
  field_simp
  ring

/-- Skipped self-pairs contribute nothing to `gravitation`. -/
theorem pairKickSelf (a : Nbody.Particle) (dt : ℝ) : Nbody.pairKick a a dt = (0, 0) := by
  simp [Nbody.pairKick]

/-- The momentum `p1` gains from the ordered pair `(p1, p2)` during one
`gravitation` call is the negative of what `p2` gains from `(p2, p1)`. -/
theorem pairKickSkew (a b : Nbody.Particle) (dt : ℝ) :
    a.mass • Nbody.pairKick a b dt = -(b.mass • Nbody.pairKick b a dt) := by
  by_cases hab : a.index = b.index
  · simp [Nbody.pairKick, hab]
  · have hba : ¬b.index = a.index := fun h => hab h.symm
    have hx : a.position.1 - b.position.1 = -(b.position.1 - a.position.1) := by ring
    have hy : a.position.2 - b.position.2 = -(b.position.2 - a.position.2) := by ring
    simp only [Nbody.pairKick, Nbody.distance_to, ne_eq, hab, hba,
      not_false_iff, if_true, hx, hy, Prod.smul_mk, smul_eq_mul,
      Prod.neg_mk, Prod.mk.injEq]
    have hsq : Real.sqrt ((-(b.position.1 - a.position.1)) ^ 2 +
        (-(b.position.2 - a.position.2)) ^ 2) =
        Real.sqrt ((b.position.1 - a.position.1) ^ 2 +
        (b.position.2 - a.position.2) ^ 2) := by
      congr 1
      ring
    rw [hsq]
    exact ⟨kickSkew _ _ _ _ _ _, kickSkew _ _ _ _ _ _⟩

/-- One `gravitation` call leaves the total momentum unchanged: the
positions are read but not written, so the pairwise kicks cancel. -/
theorem momentumGravitation (ps : List Nbody.Particle) (dt : ℝ) :
    Nbody.momentum (Nbody.gravitation ps dt) = Nbody.momentum ps := by
  unfold Nbody.momentum Nbody.gravitation
  rw [List.map_map]
  have h1 : ((fun p : Nbody.Particle => p.mass • p.velocity) ∘ fun p1 =>
      { p1 with velocity :=
          p1.velocity + (ps.map fun p2 => Nbody.pairKick p1 p2 dt).sum }) =
      fun p1 => p1.mass • p1.velocity +
        (ps.map fun p2 => p1.mass • Nbody.pairKick p1 p2 dt).sum := by
    funext p1
    simp only [Function.comp_apply, smul_add]
    rw [List.smul_sum, List.map_map]
    rfl
  rw [h1, sumMapAdd (fun p1 : Nbody.Particle => p1.mass • p1.velocity)
      (fun p1 => (ps.map fun p2 => p1.mass • Nbody.pairKick p1 p2 dt).sum) ps,
    doubleSumZero (fun p1 p2 => p1.mass • Nbody.pairKick p1 p2 dt)
      (fun a => by simp [Nbody.pairKick])
      (fun a b => pairKickSkew a b dt) ps, add_zero]

/-- A position update changes neither velocities nor masses, hence not
the momentum. -/
theorem momentumUpdatePos (ps : List Nbody.Particle) (j : ℕ) (dt : ℝ) :
    Nbody.momentum (Nbody.updatePositionAt ps j dt) = Nbody.momentum ps := by
  cases h : ps.get? j with
  | none => simp only [Nbody.updatePositionAt, h]
  | some p =>
    unfold Nbody.momentum
    simp only [Nbody.updatePositionAt, h]
    rw [mapSetPreserve (fun q : Nbody.Particle => q.mass • q.velocity) ps j
      { p with position := (p.position.1 + p.velocity.1 * dt,
                            p.position.2 + p.velocity.2 * dt) } p h rfl]

/-- One full cycle of the `nbody.py` main loop conserves momentum. -/
theorem momentumCycle (ps : List Nbody.Particle) (dt : ℝ) :
    Nbody.momentum (Nbody.eulerCycle ps dt) = Nbody.momentum ps := by
  unfold Nbody.eulerCycle
  exact foldlPreserve Nbody.momentum _
    (fun s j => by rw [momentumUpdatePos, momentumGravitation]) _ ps

/-- The stored distance between the two concrete bodies is one meter. -/
theorem distAB : gA.dist_to gB = 1 := by
  simp only [Grav.Particle.dist_to, norm3, gA, gB, Prod.mk_sub_mk]
  norm_num

/-- Acceleration of `gA` at an arbitrary candidate position, over the
concrete two-body list: the stored distance is `1` and `XG * Mval = 1`,
so the contribution of `gB` is exactly `delta`. -/
theorem accA (v : Vec3) :
    Grav.Particle.acceleration gA v [gA, gB] = ((1 : ℝ), 0, 0) - v := by
  simp only [Grav.Particle.acceleration, List.map_cons, List.map_nil,
    List.sum_cons, List.sum_nil, distAB]
  norm_num [gA, gB, Grav.XG, Mval, Prod.mk_sub_mk, Prod.smul_mk, smul_eq_mul,
    Prod.mk_add_mk, Prod.mk.injEq]

/-- The sequential `rk4` update of `gA` (first in the list). -/
theorem evalRk4A : Grav.rk4 gA [gA, gB] 1 = ((41 / 96, 0, 0), (79 / 96, 0, 0)) := by
  simp only [Grav.rk4, accA]
  norm_num [gA, Prod.mk_sub_mk, Prod.smul_mk, smul_eq_mul, Prod.mk_add_mk,
    Prod.mk.injEq]

/-- The stored distance from `gB` to `gA` is also one meter. -/
theorem distBA : gB.dist_to gA = 1 := by
  simp only [Grav.Particle.dist_to, norm3, gA, gB, Prod.mk_sub_mk]
  norm_num

/-- Acceleration of `gB` at an arbitrary candidate position over the
pre-step list (snapshot semantics). -/
theorem accBsnap (v : Vec3) :
    Grav.Particle.acceleration gB v [gA, gB] = ((0 : ℝ), 0, 0) - v := by
  simp only [Grav.Particle.acceleration, List.map_cons, List.map_nil,
    List.sum_cons, List.sum_nil, distBA]
  norm_num [gA, gB, Grav.XG, Mval, Prod.mk_sub_mk, Prod.smul_mk, smul_eq_mul,
    Prod.mk_add_mk, Prod.mk.injEq]

/-- The `rk4` update `gB` would get from the pre-step snapshot. -/
theorem evalRk4Bsnap :
    Grav.rk4 gB [gA, gB] 1 = ((55 / 96, 0, 0), (-79 / 96, 0, 0)) := by
  simp only [Grav.rk4, accBsnap]
  norm_num [gB, Prod.mk_sub_mk, Prod.smul_mk, smul_eq_mul, Prod.mk_add_mk,
    Prod.mk.injEq]

/-- After `gA` has moved to `gA1`, the stored distance from `gB` to it is
`55/96` meters. -/
theorem distBA1 : gB.dist_to gA1 = 55 / 96 := by
  simp only [Grav.Particle.dist_to, norm3, gB, gA1, gA, Prod.mk_sub_mk]
  rw [show ((1 : ℝ) - 41 / 96) ^ 2 + (0 - 0) ^ 2 + (0 - 0) ^ 2 = (55 / 96) ^ 2 by
    norm_num]
  exact Real.sqrt_sq (by norm_num)

/-- Acceleration of `gB` at an arbitrary candidate position over the
sequentially half-updated list `[gA1, gB]`. -/
theorem accB1 (v : Vec3) :
    Grav.Particle.acceleration gB v [gA1, gB] =
      ((884736 : ℝ) / 166375) • (((41 : ℝ) / 96, 0, 0) - v) := by
  simp only [Grav.Particle.acceleration, List.map_cons, List.map_nil,
    List.sum_cons, List.sum_nil, distBA1]
  norm_num [gA1, gA, gB, Grav.XG, Mval, Prod.mk_sub_mk, Prod.smul_mk,
    smul_eq_mul, Prod.mk_add_mk, Prod.mk.injEq]
  rw [smul_smul]
  norm_num

/-- The sequential `rk4` update of `gB` (second in the list, reading the
already-moved `gA1`). -/
theorem evalRk4B :
    Grav.rk4 gB [gA1, gB] 1 =
      ((-5915174784191 / 83733937890625, 0, 0),
       (-197918959592448 / 83733937890625, 0, 0)) := by
  simp only [Grav.rk4, accB1]
  norm_num [gB, Prod.mk_sub_mk, Prod.smul_mk, smul_eq_mul, Prod.mk_add_mk,
    Prod.mk.injEq]

/-- One full sequential `update_particles` pass over the concrete
two-body configuration. -/
theorem evalUpdate : Grav.updateParticles [gA, gB] 1 = [gA1, gB1] := by
  simp only [Grav.updateParticles, List.length_cons, List.length_nil,
    List.range_succ, List.range_zero, List.nil_append, List.cons_append,
    List.foldl_cons, List.foldl_nil, List.get?_cons_zero, List.get?_cons_succ,
    List.set_cons_zero, List.set_cons_succ, evalRk4A]
  have hrec : (⟨((41 : ℝ) / 96, 0, 0), ((79 : ℝ) / 96, 0, 0), gA.mas, gA.rad,
      gA.col, gA.pid⟩ : Grav.Particle) = gA1 := rfl
  rw [hrec, evalRk4B]
  rfl

/-- The snapshot (spec-worded) pass over the same configuration. -/
theorem evalSnapshot :
    Grav.updateParticlesSnapshot [gA, gB] 1 = [gA1, gBsnap] := by
  simp only [Grav.updateParticlesSnapshot, List.map_cons, List.map_nil,
    evalRk4A, evalRk4Bsnap]
  rfl

/-- Kick of the pair `(nb0, nb1)` at the initial positions with `dt = 1/2`. -/
theorem kick01 : Nbody.pairKick nb0 nb1 (1 / 2) = (1 / 2, 0) := by
  simp only [Nbody.pairKick, Nbody.distance_to, nb0, nb1]
  norm_num [Real.sqrt_one, Nbody.grav_constant, Mval, Prod.mk.injEq]

/-- Kick of the pair `(nb1, nb0)` at the initial positions with `dt = 1/2`. -/
theorem kick10 : Nbody.pairKick nb1 nb0 (1 / 2) = (-(1 / 2), 0) := by
  simp only [Nbody.pairKick, Nbody.distance_to, nb0, nb1]
  norm_num [Real.sqrt_one, Nbody.grav_constant, Mval, Prod.mk.injEq]

/-- Kick of the pair `(nb0, nb1)` after `nb0` has moved to `x = 1/4`
(distance `3/4`), with `dt = 1/2`. -/
theorem kick01b :
    Nbody.pairKick
      { nb0 with position := (1 / 4, 0), velocity := (1 / 2, 0) }
      { nb1 with velocity := (-(1 / 2), 0) } (1 / 2) = (8 / 9, 0) := by
  simp only [Nbody.pairKick, Nbody.distance_to, nb0, nb1]
  rw [show ((1 : ℝ) - 1 / 4) ^ 2 + ((0 : ℝ) - 0) ^ 2 = (3 / 4) ^ 2 by norm_num,
    Real.sqrt_sq (by norm_num : (0 : ℝ) ≤ 3 / 4)]
  norm_num [Nbody.grav_constant, Mval, Prod.mk.injEq]

/-- Kick of the pair `(nb1, nb0)` after `nb0` has moved to `x = 1/4`. -/
theorem kick10b :
    Nbody.pairKick
      { nb1 with velocity := (-(1 / 2), 0) }
      { nb0 with position := (1 / 4, 0), velocity := (1 / 2, 0) } (1 / 2) =
      (-(8 / 9), 0) := by
  simp only [Nbody.pairKick, Nbody.distance_to, nb0, nb1]
  rw [show ((1 : ℝ) / 4 - 1) ^ 2 + ((0 : ℝ) - 0) ^ 2 = (3 / 4) ^ 2 by norm_num,
    Real.sqrt_sq (by norm_num : (0 : ℝ) ≤ 3 / 4)]
  norm_num [Nbody.grav_constant, Mval, Prod.mk.injEq]

/-- One full cycle of the `nbody.py` main loop on the concrete two-body
configuration with `dt = 1/2`: `gravitation` runs twice (once per body),
so each velocity receives two increments. -/
theorem evalCycleN :
    Nbody.eulerCycle [nb0, nb1] (1 / 2) =
      [{ nb0 with position := (1 / 4, 0), velocity := (25 / 18, 0) },
       { nb1 with position := (11 / 36, 0), velocity := (-(25 / 18), 0) }] := by
  have hg1 : Nbody.gravitation [nb0, nb1] (1 / 2) =
      [{ nb0 with velocity := (1 / 2, 0) },
       { nb1 with velocity := (-(1 / 2), 0) }] := by
    simp only [Nbody.gravitation, List.map_cons, List.map_nil, List.sum_cons,
      List.sum_nil, pairKickSelf, kick01, kick10]
    norm_num [nb0, nb1, Prod.mk_add_mk, Prod.mk.injEq, Nbody.Particle.mk.injEq]
  have hp1 : Nbody.updatePositionAt
      [{ nb0 with velocity := (1 / 2, 0) },
       { nb1 with velocity := (-(1 / 2), 0) }] 0 (1 / 2) =
      [{ nb0 with position := (1 / 4, 0), velocity := (1 / 2, 0) },
       { nb1 with velocity := (-(1 / 2), 0) }] := by
    simp only [Nbody.updatePositionAt, List.get?_cons_zero, List.set_cons_zero]
    norm_num [nb0, Prod.mk.injEq, Nbody.Particle.mk.injEq]
  have hg2 : Nbody.gravitation
      [{ nb0 with position := (1 / 4, 0), velocity := (1 / 2, 0) },
       { nb1 with velocity := (-(1 / 2), 0) }] (1 / 2) =
      [{ nb0 with position := (1 / 4, 0), velocity := (25 / 18, 0) },
       { nb1 with velocity := (-(25 / 18), 0) }] := by
    simp only [Nbody.gravitation, List.map_cons, List.map_nil, List.sum_cons,
      List.sum_nil, pairKickSelf, kick01b, kick10b]
    norm_num [nb0, nb1, Prod.mk_add_mk, Prod.mk.injEq, Nbody.Particle.mk.injEq]
  have hp2 : Nbody.updatePositionAt
      [{ nb0 with position := (1 / 4, 0), velocity := (25 / 18, 0) },
       { nb1 with velocity := (-(25 / 18), 0) }] 1 (1 / 2) =
      [{ nb0 with position := (1 / 4, 0), velocity := (25 / 18, 0) },
       { nb1 with position := (11 / 36, 0), velocity := (-(25 / 18), 0) }] := by
    simp only [Nbody.updatePositionAt, List.get?_cons_succ, List.get?_cons_zero,
      List.set_cons_succ, List.set_cons_zero]
    norm_num [nb1, Prod.mk.injEq, Nbody.Particle.mk.injEq]
  simp only [Nbody.eulerCycle, List.length_cons, List.length_nil,
    List.range_succ, List.range_zero, List.nil_append, List.cons_append,
    List.foldl_cons, List.foldl_nil, hg1, hp1, hg2, hp2]

/-- Spec ForceModel on `nb0` at its own position. -/
theorem fm0 : Nbody.forceModelSpec nb0 nb0.position [nb0, nb1] = (1, 0) := by
  simp only [Nbody.forceModelSpec, List.map_cons, List.map_nil, List.sum_cons,
    List.sum_nil, nb0, nb1]
  norm_num [Real.sqrt_one, Nbody.grav_constant, Mval, Prod.mk_sub_mk,
    Prod.smul_mk, smul_eq_mul, Prod.mk_add_mk, Prod.mk.injEq]

/-- Spec ForceModel on `nb1` at its own position. -/
theorem fm1 : Nbody.forceModelSpec nb1 nb1.position [nb0, nb1] = (-1, 0) := by
  simp only [Nbody.forceModelSpec, List.map_cons, List.map_nil, List.sum_cons,
    List.sum_nil, nb0, nb1, Prod.mk_sub_mk]
  norm_num [Real.sqrt_one, Nbody.grav_constant, Mval,
    Prod.smul_mk, smul_eq_mul, Prod.mk_add_mk, Prod.mk.injEq]

/-- The claim-worded single-update Euler step on the concrete two-body
configuration with `dt = 1/2`. -/
theorem evalClaim :
    Nbody.claimEulerStep [nb0, nb1] (1 / 2) =
      [{ nb0 with position := (1 / 4, 0), velocity := (1 / 2, 0) },
       { nb1 with position := (3 / 4, 0), velocity := (-(1 / 2), 0) }] := by
  simp only [Nbody.claimEulerStep, List.map_cons, List.map_nil, fm0, fm1]
  norm_num [nb0, nb1, Prod.smul_mk, smul_eq_mul, Prod.mk_add_mk,
    Prod.mk.injEq, Nbody.Particle.mk.injEq]

/-- On a one-body list, `gravitation` changes nothing: the `p1.index !=
p2.index` guard skips the only pair. -/
theorem gravitationSingle (p : Nbody.Particle) (dt : ℝ) :
    Nbody.gravitation [p] dt = [p] := by
  simp only [Nbody.gravitation, List.map_cons, List.map_nil, List.sum_cons,
    List.sum_nil, pairKickSelf]
  norm_num

/-- One cycle of the `nbody.py` loop on a one-body list only moves the
body along its velocity. -/
theorem eulerSingle (p : Nbody.Particle) (dt : ℝ) :
    Nbody.eulerCycle [p] dt =
      [{ p with position := (p.position.1 + p.velocity.1 * dt,
                             p.position.2 + p.velocity.2 * dt) }] := by
  simp only [Nbody.eulerCycle, List.length_cons, List.length_nil,
    List.range_succ, List.range_zero, List.nil_append, List.foldl_cons,
    List.foldl_nil, gravitationSingle]
  simp only [Nbody.updatePositionAt, List.get?_cons_zero, List.set_cons_zero]

/-- Any number of cycles on a one-body list only ever moves the body:
mass, velocity and all display fields are untouched. -/
theorem stepsSingle (dt : ℝ) :
    ∀ (k : ℕ) (p : Nbody.Particle), ∃ x : Vec2,
      Nbody.steps [p] dt k = [{ p with position := x }]
  | 0, p => ⟨p.position, rfl⟩
  | k + 1, p => by
    obtain ⟨x, hx⟩ := stepsSingle dt k
      { p with position := (p.position.1 + p.velocity.1 * dt,
                            p.position.2 + p.velocity.2 * dt) }
    exact ⟨x, by simp only [Nbody.steps, eulerSingle]; exact hx⟩

/-- On a one-body list, `acceleration` is the zero vector: the
`p1 is not self` guard skips the only entry. -/
theorem accelSingle (q : Grav.Particle) (v : Vec3) :
    Grav.Particle.acceleration q v [q] = 0 := by
  simp [Grav.Particle.acceleration]

/-- On a one-body list, `rk4` returns the velocity unchanged. -/
theorem rk4SingleVel (q : Grav.Particle) (dt : ℝ) :
    (Grav.rk4 q [q] dt).2 = q.vel := by
  simp [Grav.rk4, accelSingle]

/-- One `update_particles` pass on a one-body list only moves the body. -/
theorem updateSingle (q : Grav.Particle) (dt : ℝ) :
    Grav.updateParticles [q] dt = [{ q with pos := (Grav.rk4 q [q] dt).1 }] := by
  simp only [Grav.updateParticles, List.length_cons, List.length_nil,
    List.range_succ, List.range_zero, List.nil_append, List.foldl_cons,
    List.foldl_nil, List.get?_cons_zero, List.set_cons_zero]
  rw [show ({ q with pos := (Grav.rk4 q [q] dt).1, vel := (Grav.rk4 q [q] dt).2 } :
    Grav.Particle) = { q with pos := (Grav.rk4 q [q] dt).1, vel := q.vel } from by
    rw [rk4SingleVel]]

/-- Any number of `while` iterations on a one-body list only ever moves
the body. -/
theorem gravStepsSingle (dt : ℝ) :
    ∀ (k : ℕ) (q : Grav.Particle), ∃ x : Vec3,
      Grav.steps [q] dt k = [{ q with pos := x }]
  | 0, q => ⟨q.pos, rfl⟩
  | k + 1, q => by
    obtain ⟨x, hx⟩ := gravStepsSingle dt k { q with pos := (Grav.rk4 q [q] dt).1 }
    exact ⟨x, by simp only [Grav.steps, updateSingle]; exact hx⟩

/-- `gravitation` touches only velocities. -/
theorem projGravitation (ps : List Nbody.Particle) (dt : ℝ) :
    (Nbody.gravitation ps dt).map (fun p => (p.mass, p.radius, p.colour, p.index)) =
      ps.map fun p => (p.mass, p.radius, p.colour, p.index) := by
  rw [Nbody.gravitation, List.map_map]
  rfl

/-- `update_position` touches only the position. -/
theorem projUpdatePos (ps : List Nbody.Particle) (j : ℕ) (dt : ℝ) :
    (Nbody.updatePositionAt ps j dt).map (fun p => (p.mass, p.radius, p.colour, p.index)) =
      ps.map fun p => (p.mass, p.radius, p.colour, p.index) := by
  cases h : ps.get? j with
  | none => simp only [Nbody.updatePositionAt, h]
  | some p =>
    simp only [Nbody.updatePositionAt, h]
    rw [mapSetPreserve (fun p : Nbody.Particle => (p.mass, p.radius, p.colour, p.index)) ps j
      { p with position := (p.position.1 + p.velocity.1 * dt,
                            p.position.2 + p.velocity.2 * dt) } p h rfl]

/-- One `update_particles` pass touches only positions and velocities. -/
theorem projUpdateParticles (qs : List Grav.Particle) (dt : ℝ) :
    (Grav.updateParticles qs dt).map (fun q => (q.mas, q.rad, q.col, q.pid)) =
      qs.map fun q => (q.mas, q.rad, q.col, q.pid) := by
  unfold Grav.updateParticles
  refine foldlPreserve (fun s => s.map fun q => (q.mas, q.rad, q.col, q.pid))
    _ (fun s i => ?_) _ qs
  cases h : s.get? i with
  | none => simp only [h]
  | some p =>
    simp only [h]
    rw [mapSetPreserve (fun q : Grav.Particle => (q.mas, q.rad, q.col, q.pid)) s i
      { p with pos := (Grav.rk4 p s dt).1, vel := (Grav.rk4 p s dt).2 } p h rfl]

/-- With `dt = 0` every pair kick vanishes. -/
theorem pairKickZero (a b : Nbody.Particle) : Nbody.pairKick a b 0 = (0, 0) := by
  by_cases hab : a.index = b.index
  · simp [Nbody.pairKick, hab]
  · simp [Nbody.pairKick, hab]

/-- With `dt = 0`, `gravitation` is the identity. -/
theorem gravitationZero (ps : List Nbody.Particle) :
    Nbody.gravitation ps 0 = ps := by
  unfold Nbody.gravitation
  refine mapIdOf _ ps fun a _ => ?_
  rw [List.sum_eq_zero fun x hx => ?_, add_zero]
  rcases List.mem_map.1 hx with ⟨b, _, rfl⟩
  exact pairKickZero a b

/-- With `dt = 0`, a position update is the identity. -/
theorem updatePosZero (ps : List Nbody.Particle) (j : ℕ) :
    Nbody.updatePositionAt ps j 0 = ps := by
  cases h : ps.get? j with
  | none => simp only [Nbody.updatePositionAt, h]
  | some p =>
    simp only [Nbody.updatePositionAt, h, mul_zero, add_zero]
    exact setGetSelf ps j p h

/-- With `dt = 0`, `rk4` returns the stored position and velocity. -/
theorem rk4Zero (q : Grav.Particle) (L : List Grav.Particle) :
    Grav.rk4 q L 0 = (q.pos, q.vel) := by
  simp [Grav.rk4]

/-- With `dt = 0`, one `update_particles` pass is the identity. -/
theorem updateParticlesZero (qs : List Grav.Particle) :
    Grav.updateParticles qs 0 = qs := by
  unfold Grav.updateParticles
  refine foldlId _ (fun s i => ?_) _ qs
  cases h : s.get? i with
  | none => simp only [h]
  | some p =>
    simp only [h, rk4Zero]
    exact setGetSelf s i p h

/-- C1 (counterexample): at stored positions `(0,0,0)` and `(1,0,0)` (one
meter apart) and candidate position `(1/2, 0, 0)`, the code's
`acceleration` uses the stored distance `1` while the claim's formula uses
`dist = |delta| = 1/2`; the results differ (`(1/2,0,0)` versus `(4,0,0)`). -/
theorem C1_dist_counterexample :
    Grav.Particle.acceleration gA ((1 : ℝ) / 2, 0, 0) [gA, gB] = (1 / 2, 0, 0) ∧
    Grav.accelerationSpec gA ((1 : ℝ) / 2, 0, 0) [gA, gB] = (4, 0, 0) ∧
    Grav.Particle.acceleration gA ((1 : ℝ) / 2, 0, 0) [gA, gB] ≠
      Grav.accelerationSpec gA ((1 : ℝ) / 2, 0, 0) [gA, gB] := by
  have h1 : Grav.Particle.acceleration gA ((1 : ℝ) / 2, 0, 0) [gA, gB] =
      ((1 : ℝ) / 2, 0, 0) := by
    rw [accA]
    norm_num [Prod.mk_sub_mk, Prod.mk.injEq]
  have h2 : Grav.accelerationSpec gA ((1 : ℝ) / 2, 0, 0) [gA, gB] = (4, 0, 0) := by
    simp only [Grav.accelerationSpec, List.map_cons, List.map_nil,
      List.sum_cons, List.sum_nil, norm3, gA, gB, Prod.mk_sub_mk]
    rw [show ((1 : ℝ) - 1 / 2) ^ 2 + ((0 : ℝ) - 0) ^ 2 + ((0 : ℝ) - 0) ^ 2 =
      (1 / 2) ^ 2 by norm_num, Real.sqrt_sq (by norm_num : (0 : ℝ) ≤ 1 / 2)]
    norm_num [Grav.XG, Mval, Prod.smul_mk, smul_eq_mul, Prod.mk_add_mk,
      Prod.mk.injEq]
  refine ⟨h1, h2, ?_⟩
  rw [h1, h2]
  norm_num [Prod.mk.injEq]

/-- C1 (amended): `acceleration` sums, over each other body `o` compared
by identity, `((XG * b.mas * o.mas / dist^2) / b.mas) • (dist⁻¹ • delta)`
where `delta = o.pos - p` comes from the candidate position but
`dist = |b.pos - o.pos|` is computed from the stored positions via
`dist_to`, not from the candidate position. -/
theorem C1_acceleration_amended (self : Grav.Particle) (p : Vec3)
    (L : List Grav.Particle) :
    Grav.Particle.acceleration self p L =
      (L.map fun o =>
        if o.pid = self.pid then (0 : Vec3)
        else (Grav.XG * self.mas * o.mas / (self.dist_to o) ^ (2 : ℕ) /
          self.mas) • ((self.dist_to o)⁻¹ • (o.pos - p))).sum := rfl

/-- C2 (confirmed): the `rk4` integrator computes exactly the staged
values of the claim, with the stage-4 acceleration evaluated at `kp3`
rather than `kp4`, and combines them as
`v0 + (dt/6)·(ka1 + 2·ka2 + 2·ka3 + ka4)` and
`p0 + (dt/6)·(kv1 + 2·kv2 + 2·kv3 + kv4)` (returned as
`(new_pos, new_vel)`). -/
theorem C2_rk4_stages (p : Grav.Particle) (L : List Grav.Particle) (dt : ℝ) :
    Grav.rk4 p L dt =
      (let kv1 := p.vel
       let kp1 := p.pos
       let ka1 := p.acceleration kp1 L
       let kv2 := kv1 + (0.5 * dt) • ka1
       let kp2 := kp1 + (0.5 * dt) • kv2
       let ka2 := p.acceleration kp2 L
       let kv3 := kv1 + (0.5 * dt) • ka2
       let kp3 := kp1 + (0.5 * dt) • kv3
       let ka3 := p.acceleration kp3 L
       let kv4 := kv1 + dt • ka3
       let ka4 := p.acceleration kp3 L
       (kp1 + (dt / 6) • (kv1 + (2 : ℝ) • kv2 + (2 : ℝ) • kv3 + kv4),
        kv1 + (dt / 6) • (ka1 + (2 : ℝ) • ka2 + (2 : ℝ) • ka3 + ka4))) := by
  unfold Grav.rk4
  refine Prod.ext ?_ ?_
  · module
  · module

/-- C3 (counterexample): on a concrete two-body system, one full cycle of
the `nbody.py` main loop is not the claimed single-update semi-implicit
Euler step: the loop calls `gravitation` once per body inside the `j`
loop, so each velocity is incremented twice per cycle (`25/18` instead of
`1/2` for the first body). -/
theorem C3_single_update_counterexample :
    Nbody.eulerCycle [nb0, nb1] (1 / 2) ≠
      Nbody.claimEulerStep [nb0, nb1] (1 / 2) := by
  rw [evalCycleN, evalClaim]
  simp only [ne_eq, List.cons.injEq, Nbody.Particle.mk.injEq, Prod.mk.injEq,
    not_and]
  intro h
  exfalso
  have := h.2.1
  norm_num at this

/-- C3 (amended): during one full cycle of the `nbody.py` main loop over
a two-body list, the velocity-update routine `gravitation` runs once per
body (so each body's velocity is updated once per run, twice per cycle,
each time by `dt` times its acceleration at the then-current positions),
and body `j`'s position is advanced right after the `j`-th run, using its
already-updated velocity. -/
theorem C3_euler_step_amended (p0 p1 : Nbody.Particle) (dt : ℝ) :
    Nbody.eulerCycle [p0, p1] dt =
      Nbody.updatePositionAt
        (Nbody.gravitation
          (Nbody.updatePositionAt (Nbody.gravitation [p0, p1] dt) 0 dt) dt)
        1 dt := by
  simp only [Nbody.eulerCycle, List.length_cons, List.length_nil,
    List.range_succ, List.range_zero, List.nil_append, List.cons_append,
    List.foldl_cons, List.foldl_nil]

/-- C4 (counterexample): on a concrete two-body system, the sequential
in-place `update_particles` differs from the snapshot semantics of the
claim: the second body's update reads the first body already moved. -/
theorem C4_snapshot_counterexample :
    Grav.updateParticles [gA, gB] 1 ≠ Grav.updateParticlesSnapshot [gA, gB] 1 := by
  rw [evalUpdate, evalSnapshot]
  simp only [ne_eq, List.cons.injEq, gB1, gBsnap, Grav.Particle.mk.injEq,
    Prod.mk.injEq, not_and]
  intro _ h
  exfalso
  have := h.1.1
  norm_num at this

/-- C4 (amended): `update_particles` updates the list in place in order:
on a two-body list, the first body's four-stage update reads both bodies
at their pre-step state, but the second body's update reads the first
body already advanced within the same step. -/
theorem C4_sequential_amended (a b : Grav.Particle) (dt : ℝ) :
    Grav.updateParticles [a, b] dt =
      (let ra := Grav.rk4 a [a, b] dt
       let a2 : Grav.Particle := { a with pos := ra.1, vel := ra.2 }
       let rb := Grav.rk4 b [a2, b] dt
       [a2, { b with pos := rb.1, vel := rb.2 }]) := by
  simp only [Grav.updateParticles, List.length_cons, List.length_nil,
    List.range_succ, List.range_zero, List.nil_append, List.cons_append,
    List.foldl_cons, List.foldl_nil, List.get?_cons_zero, List.get?_cons_succ,
    List.set_cons_zero, List.set_cons_succ]

/-- C5 (amended, Euler part): for the `nbody.py` loop, the vector sum of
`mass • velocity` over all bodies is exactly invariant after any number
of completed cycles, for any body list and any `dt`: each `gravitation`
call reads only positions, and its pairwise kicks cancel exactly. -/
theorem C5_momentum_amended (ps : List Nbody.Particle) (dt : ℝ) (k : ℕ) :
    Nbody.momentum (Nbody.steps ps dt k) = Nbody.momentum ps := by
  induction k generalizing ps with
  | zero => rfl
  | succ k ih => rw [Nbody.steps, ih, momentumCycle]

/-- C5 (counterexample, RK4 part): one `update_particles` pass on a
concrete two-body system at rest does not conserve the total momentum in
exact arithmetic (the per-body frozen-background RK4 update with
sequential mutation has no pairwise cancellation). -/
theorem C5_rk4_momentum_counterexample :
    Grav.momentum (Grav.updateParticles [gA, gB] 1) ≠ Grav.momentum [gA, gB] := by
  rw [evalUpdate]
  simp only [Grav.momentum, List.map_cons, List.map_nil, List.sum_cons,
    List.sum_nil, gA1, gB1, gA, gB, Mval, Prod.smul_mk, smul_eq_mul,
    Prod.mk_add_mk, ne_eq, Prod.mk.injEq, not_and]
  intro h
  exfalso
  norm_num at h

/-- C5 witness for the amended theorem at a concrete input: two cycles on
the concrete two-body configuration preserve the total momentum. -/
theorem C5_momentum_amended_witness :
    Nbody.momentum (Nbody.steps [nb0, nb1] (1 / 2) 2) =
      Nbody.momentum [nb0, nb1] :=
  C5_momentum_amended [nb0, nb1] (1 / 2) 2

/-- C6 (counterexample): a body with mass `-1` solar masses is
constructed without any rejection, a full simulation cycle runs on it,
and a negative `--timestep` is accepted by both argument readers; nothing
in either constructor or argument reader validates positivity. -/
theorem C6_rejection_counterexample :
    (Nbody.mkParticle (0, 0) (0, 0) (-1) 1 0 "#000000").mass < 0 ∧
    Nbody.eulerCycle [Nbody.mkParticle (0, 0) (0, 0) (-1) 1 0 "#000000"] 1 =
      [Nbody.mkParticle (0, 0) (0, 0) (-1) 1 0 "#000000"] ∧
    (Grav.mkParticle 0 (0, 0, 0) (0, 0, 0) (-1) 4 (0, 0, 0)).mas < 0 ∧
    Nbody.selectTimestep (some (-5)) = -5 ∧
    Grav.selectTimestep (some (-5)) = -5 := by
  refine ⟨?_, ?_, ?_, ?_, ?_⟩
  · norm_num [Nbody.mkParticle, Nbody.M_sun]
  · rw [eulerSingle]
    norm_num [Nbody.mkParticle]
  · norm_num [Grav.mkParticle, Grav.XMSUN]
  · norm_num [Nbody.selectTimestep]
  · norm_num [Grav.selectTimestep]

/-- C6 (amended): neither program validates its configuration: the
constructors store any mass (scaled by the solar mass) without a
positivity check, the argument readers accept any nonzero time step
including negative ones (a zero time step is silently replaced by the
default through Python truthiness), and the simulation steps run on such
configurations (a cycle on a one-body list is well defined for every
mass and `dt`). -/
theorem C6_no_validation_amended (m dt t : ℝ) (pos vel : Vec2) (r : ℝ)
    (i : ℕ) (c : String) (pos3 vel3 : Vec3) (r3 : ℝ) (c3 : ℕ × ℕ × ℕ)
    (ht : t ≠ 0) :
    (Nbody.mkParticle pos vel m r i c).mass = m * Nbody.M_sun ∧
    (Grav.mkParticle i pos3 vel3 m r3 c3).mas = m * Grav.XMSUN ∧
    Nbody.selectTimestep (some t) = t ∧
    Grav.selectTimestep (some t) = t ∧
    (Nbody.eulerCycle [Nbody.mkParticle pos vel m r i c] dt).length = 1 := by
  refine ⟨rfl, rfl, ?_, ?_, ?_⟩
  · simp [Nbody.selectTimestep, ht]
  · simp [Grav.selectTimestep, ht]
  · rw [eulerSingle]
    rfl

/-- C6 witness: the amended theorem applied at a negative mass and a
negative time step. -/
theorem C6_no_validation_witness :
    ((-3 : ℝ) ≠ 0) ∧
    ((Nbody.mkParticle (0, 0) (0, 0) (-2) 1 0 "#000000").mass =
        -2 * Nbody.M_sun ∧
      (Grav.mkParticle 0 (0, 0, 0) (0, 0, 0) (-2) 4 (0, 0, 0)).mas =
        -2 * Grav.XMSUN ∧
      Nbody.selectTimestep (some (-3)) = -3 ∧
      Grav.selectTimestep (some (-3)) = -3 ∧
      (Nbody.eulerCycle [Nbody.mkParticle (0, 0) (0, 0) (-2) 1 0 "#000000"]
        (-3)).length = 1) :=
  ⟨by norm_num,
    C6_no_validation_amended (-2) (-3) (-3) (0, 0) (0, 0) 1 0 "#000000"
      (0, 0, 0) (0, 0, 0) 4 (0, 0, 0) (by norm_num)⟩

/-- C7 (counterexample): the `nbody.py` constructor stores the position
exactly as given; it is not multiplied by the solar radius (its callers
pass positions already in meters). -/
theorem C7_position_counterexample :
    (Nbody.mkParticle (1, 1) (0, 0) 1 1 0 "#000000").position = (1, 1) ∧
    ((1 : ℝ), (1 : ℝ)) ≠ ((1 * Nbody.R_sun : ℝ), (1 * Nbody.R_sun : ℝ)) := by
  constructor
  · rfl
  · rw [Ne, Prod.ext_iff]
    norm_num [Nbody.R_sun]

/-- C7 (amended): the `grav_nbody_rk4.py` constructor converts position
(× solar radius), velocity (× 1000) and mass (× solar mass) once at
construction; the `nbody.py` constructor converts velocity and mass the
same way but stores the position exactly as given. -/
theorem C7_unit_conversion_amended (pid i : ℕ) (p3 v3 : Vec3) (p2 v2 : Vec2)
    (m r m2 r2 : ℝ) (c3 : ℕ × ℕ × ℕ) (c : String) :
    (Grav.mkParticle pid p3 v3 m r c3).pos =
      (p3.1 * Grav.XRSUN, p3.2.1 * Grav.XRSUN, p3.2.2 * Grav.XRSUN) ∧
    (Grav.mkParticle pid p3 v3 m r c3).vel =
      (v3.1 * Grav.XKM, v3.2.1 * Grav.XKM, v3.2.2 * Grav.XKM) ∧
    (Grav.mkParticle pid p3 v3 m r c3).mas = m * Grav.XMSUN ∧
    (Nbody.mkParticle p2 v2 m2 r2 i c).position = p2 ∧
    (Nbody.mkParticle p2 v2 m2 r2 i c).velocity =
      (v2.1 * Nbody.km, v2.2 * Nbody.km) ∧
    (Nbody.mkParticle p2 v2 m2 r2 i c).mass = m2 * Nbody.M_sun :=
  ⟨rfl, rfl, rfl, rfl, rfl, rfl⟩

/-- C8 (confirmed): with `dt = 0`, both the full `nbody.py` cycle and the
RK4 `update_particles` pass leave every body's position and velocity
exactly unchanged, for any lists of pairwise non-coincident bodies. -/
theorem C8_zero_step_idempotence (ps : List Nbody.Particle)
    (qs : List Grav.Particle)
    (hps : ps.Pairwise fun a b => a.position ≠ b.position)
    (hqs : qs.Pairwise fun a b => a.pos ≠ b.pos) :
    Nbody.eulerCycle ps 0 = ps ∧ Grav.updateParticles qs 0 = qs := by
  refine ⟨?_, updateParticlesZero qs⟩
  unfold Nbody.eulerCycle
  exact foldlId _ (fun s j => by rw [gravitationZero, updatePosZero]) _ ps

/-- C8 witness: zero-step idempotence at the concrete two-body
configurations (pairwise distinct positions). -/
theorem C8_zero_step_witness :
    (([nb0, nb1] : List Nbody.Particle).Pairwise fun a b =>
        a.position ≠ b.position) ∧
    (([gA, gB] : List Grav.Particle).Pairwise fun a b => a.pos ≠ b.pos) ∧
    (Nbody.eulerCycle [nb0, nb1] 0 = [nb0, nb1] ∧
      Grav.updateParticles [gA, gB] 0 = [gA, gB]) := by
  have h1 : ([nb0, nb1] : List Nbody.Particle).Pairwise fun a b =>
      a.position ≠ b.position := by
    refine List.pairwise_cons.2 ⟨?_, List.pairwise_singleton _ _⟩
    intro b hb
    rw [List.mem_singleton.1 hb, Ne, Prod.ext_iff, nb0, nb1]
    norm_num
  have h2 : ([gA, gB] : List Grav.Particle).Pairwise fun a b =>
      a.pos ≠ b.pos := by
    refine List.pairwise_cons.2 ⟨?_, List.pairwise_singleton _ _⟩
    intro b hb
    rw [List.mem_singleton.1 hb, Ne, Prod.ext_iff, gA, gB]
    norm_num
  exact ⟨h1, h2, C8_zero_step_idempotence [nb0, nb1] [gA, gB] h1 h2⟩

/-- C9 (confirmed): a one-body system never changes its velocity, for any
time steps and any number of steps, under both integrators: the pairwise
sums skip the body itself (`index` guard in `gravitation`, identity guard
in `acceleration`), so the computed acceleration is zero. -/
theorem C9_single_body_noop (p : Nbody.Particle) (q : Grav.Particle)
    (dt dt' : ℝ) (k k' : ℕ) :
    (Nbody.steps [p] dt k).map Nbody.Particle.velocity = [p.velocity] ∧
    (Grav.steps [q] dt' k').map Grav.Particle.vel = [q.vel] := by
  constructor
  · obtain ⟨x, hx⟩ := stepsSingle dt k p
    rw [hx]
    rfl
  · obtain ⟨x, hx⟩ := gravStepsSingle dt' k' q
    rw [hx]
    rfl

/-- C10 (confirmed): one integration step — a full `nbody.py` cycle or a
full `update_particles` pass — mutates only positions and velocities:
the mass, radius, colour and index/identity of every body are unchanged
(and the list keeps its length and order). -/
theorem C10_frame_effect (ps : List Nbody.Particle) (qs : List Grav.Particle)
    (dt dt' : ℝ) :
    (Nbody.eulerCycle ps dt).map
        (fun p => (p.mass, p.radius, p.colour, p.index)) =
      ps.map (fun p => (p.mass, p.radius, p.colour, p.index)) ∧
    (Grav.updateParticles qs dt').map (fun q => (q.mas, q.rad, q.col, q.pid)) =
      qs.map fun q => (q.mas, q.rad, q.col, q.pid) := by
  refine ⟨?_, projUpdateParticles qs dt'⟩
  unfold Nbody.eulerCycle
  refine foldlPreserve
    (fun s => s.map fun p => (p.mass, p.radius, p.colour, p.index))
    (fun s j => Nbody.updatePositionAt (Nbody.gravitation s dt) j dt)
    (fun s j => ?_) _ ps
  show (Nbody.updatePositionAt (Nbody.gravitation s dt) j dt).map
      (fun p => (p.mass, p.radius, p.colour, p.index)) =
    s.map fun p => (p.mass, p.radius, p.colour, p.index)
  rw [projUpdatePos, projGravitation]
